import Mathlib

/-!
Verification of the samvad-client voice-assistant frontend.

The definitions below are a shallow embedding of the TypeScript sources:

* `WebSocketManager` models `websocket-utils.ts` (the `WebSocketManager`
  class: `connect`, `send`/`queueMessage`, `flushMessageQueue`, and the
  heartbeat interval/timeout callbacks).
* `Machine` models `voiceAssistantMachine.ts` (the xstate machine: states,
  transition table, transition `assign` actions and entry `assign` actions;
  the entry action of every state assigns `error: null`, and xstate applies
  assigns in exit - transition - entry order).
* `Client` models the event handlers of `VADVoiceClient.tsx`
  (`onSpeechStart`, `onSpeechEnd`, `handleInterruption`,
  `handleWebSocketMessage`, `retryPendingRequest`, the state-timeout
  monitor effect, and the per-call-site machine-event emissions).

Machine integers are `Nat` (timestamps in milliseconds, counters); audio
sample buffers are abstracted as `List Int` (the code only stores and
re-encodes them, it never inspects individual samples).
-/

namespace Samvad

/-! Transport layer: `websocket-utils.ts` (`WebSocketManager`). -/

/-- Browser WebSocket `readyState` values. -/
inductive ReadyState
  | CONNECTING
  | OPEN
  | CLOSING
  | CLOSED
deriving DecidableEq, Repr

/-- Outbound message tags used by the client on the duplex channel.
`audioChunk`/`endAudio` carry the utterance id they belong to so that
ordering per utterance can be stated; the real messages carry base64 audio
and a language code. -/
inductive OutMsg
  | audioChunk (utterance : Nat)
  | endAudio (utterance : Nat)
  | ping
  | initMsg
  | interruptMsg
deriving DecidableEq, Repr

/-- State of a `WebSocketManager` instance.  `ws = none` models
`this.ws === null`; otherwise it holds the underlying socket's
`readyState`.  `socketsCreated` counts executions of `new WebSocket(url)`
(instrumentation used to state the no-duplicate-channel property). -/
structure WSManagerState where
  ws : Option ReadyState
  isDestroyed : Bool
  isIntentionalClose : Bool
  reconnectAttempts : Nat
  messageQueue : List OutMsg
  socketsCreated : Nat
deriving DecidableEq, Repr

/-- Model of `WebSocketManager.connect()`:
returns early when the manager is destroyed, returns early when
`this.ws?.readyState === WebSocket.OPEN`, and otherwise executes
`this.ws = new WebSocket(this.config.url)` (a fresh socket starts in
`CONNECTING`). -/
def connect (st : WSManagerState) : WSManagerState :=
  if st.isDestroyed then st
  else if st.ws = some ReadyState.OPEN then st
  else { st with ws := some ReadyState.CONNECTING,
                 socketsCreated := st.socketsCreated + 1 }

/-- Model of the `setInterval` body of `WebSocketManager.startHeartbeat`:
a ping is sent exactly when `this.ws?.readyState === WebSocket.OPEN &&
!this.isDestroyed`. -/
def heartbeatIntervalSendsPing (st : WSManagerState) : Bool :=
  decide (st.ws = some ReadyState.OPEN) && !st.isDestroyed

/-- Model of the `setTimeout` callback armed after each heartbeat ping
(`startHeartbeat`): the socket is closed (`this.ws.close(1000, 'Heartbeat
timeout')`) exactly when `this.ws?.readyState === WebSocket.OPEN &&
!this.isDestroyed`.  Nothing else is consulted: the callback reads no
record of whether a pong was received. -/
def heartbeatTimeoutCloses (st : WSManagerState) : Bool :=
  decide (st.ws = some ReadyState.OPEN) && !st.isDestroyed

/-- Model of the manager's `onmessage` handler as far as manager state is
concerned: it parses the frame and forwards it to `callbacks.onMessage`,
mutating nothing in the manager. -/
def managerHandleMessage (st : WSManagerState) : WSManagerState := st

/-- Model of `WebSocketManager.queueMessage` (generic in the message type):
when `messageQueue.length >= maxMessageQueueSize` the oldest entry is
shifted off, then the new message is pushed. -/
def queueMessage {α : Type} (maxSize : Nat) (queue : List α) (m : α) : List α :=
  (if maxSize ≤ queue.length then queue.drop 1 else queue) ++ [m]

/-- Repeated `queueMessage` for a whole submission sequence. -/
def enqueueAll {α : Type} (maxSize : Nat) (queue : List α) (ms : List α) : List α :=
  ms.foldl (queueMessage maxSize) queue

/-- Model of `WebSocketManager.flushMessageQueue`: the queue is drained
oldest-first in batches of ten (`this.messageQueue.splice(0, batchSize)`),
each batch being sent in order via `sendImmediate`; the result is the
sequence of messages handed to the socket, in send order. -/
def flushMessageQueue {α : Type} : List α → List α
  | [] => []
  | x :: rest => ((x :: rest).take 10) ++ flushMessageQueue ((x :: rest).drop 10)
termination_by l => l.length
decreasing_by
  simp only [List.length_drop, List.length_cons]
  omega

/-! Conversation state machine: `voiceAssistantMachine.ts`. -/

/-- The eight states of `voiceAssistantMachine`. -/
inductive Phase
  | idle
  | starting
  | ready
  | listening
  | processing
  | responding
  | interrupted
  | error
deriving DecidableEq, Repr

/-- Events of `voiceAssistantMachine` (`VoiceAssistantEvent`).
`STARTING_TIMEOUT` stands for the `after: 10000` delayed transition of the
`starting` state. -/
inductive MEvent
  | START
  | READY
  | LISTEN
  | SPEECH_START
  | SPEECH_END
  | RESPONSE_READY
  | END
  | REPEAT
  | INTERRUPT
  | RESUME
  | CANCEL
  | RETRY
  | CLEAR_ERROR
  | ERROR (error : String)
  | STARTING_TIMEOUT
deriving DecidableEq, Repr

/-- Machine context (`VoiceAssistantContext`): the error slot. -/
structure MContext where
  error : Option String
deriving DecidableEq, Repr

/-- An `assign({ error: msg })` transition action. -/
def assignError (_ctx : MContext) (msg : String) : MContext :=
  { error := some msg }

/-- The `entry: assign({ error: null })` action that every one of the eight
states of the machine declares (including `error`). -/
def entryClearError (_ctx : MContext) : MContext :=
  { error := none }

/-- One xstate microstep of `voiceAssistantMachine`: the transition table
of the source, with assigns applied in transition-then-entry order.  Every
state's `entry` assigns `error: null`, so it is applied after the
transition's own assign on every external transition.  `CLEAR_ERROR` is an
internal transition (`actions` only, no `target`).  Unhandled events leave
state and context unchanged. -/
def machineStep (s : Phase) (ctx : MContext) (e : MEvent) : Phase × MContext :=
  match s, e with
  | .idle, .START => (.starting, entryClearError ctx)
  | .idle, .RESPONSE_READY => (.responding, entryClearError ctx)
  | .idle, .CLEAR_ERROR => (.idle, { error := none })
  | .starting, .STARTING_TIMEOUT =>
      (.error, entryClearError (assignError ctx "Failed to start: Connection timeout"))
  | .starting, .READY => (.ready, entryClearError ctx)
  | .starting, .ERROR _ => (.error, entryClearError (assignError ctx "An error occurred"))
  | .ready, .LISTEN => (.listening, entryClearError ctx)
  | .ready, .SPEECH_START => (.listening, entryClearError ctx)
  | .ready, .RESPONSE_READY => (.responding, entryClearError ctx)
  | .ready, .CLEAR_ERROR => (.ready, { error := none })
  | .ready, .ERROR _ => (.error, entryClearError (assignError ctx "An error occurred"))
  | .listening, .SPEECH_START => (.listening, entryClearError ctx)
  | .listening, .SPEECH_END => (.processing, entryClearError ctx)
  | .listening, .RESPONSE_READY => (.responding, entryClearError ctx)
  | .listening, .INTERRUPT => (.interrupted, entryClearError ctx)
  | .listening, .CANCEL => (.idle, entryClearError ctx)
  | .listening, .CLEAR_ERROR => (.listening, { error := none })
  | .listening, .ERROR _ => (.error, entryClearError (assignError ctx "An error occurred"))
  | .processing, .RESPONSE_READY => (.responding, entryClearError ctx)
  | .processing, .READY => (.ready, entryClearError ctx)
  | .processing, .LISTEN => (.listening, entryClearError ctx)
  | .processing, .INTERRUPT => (.interrupted, entryClearError ctx)
  | .processing, .CLEAR_ERROR => (.processing, { error := none })
  | .processing, .ERROR _ => (.error, entryClearError (assignError ctx "An error occurred"))
  | .responding, .END => (.ready, entryClearError ctx)
  | .responding, .LISTEN => (.listening, entryClearError ctx)
  | .responding, .INTERRUPT => (.interrupted, entryClearError ctx)
  | .responding, .CLEAR_ERROR => (.responding, { error := none })
  | .responding, .ERROR _ => (.error, entryClearError (assignError ctx "An error occurred"))
  | .interrupted, .RESUME => (.listening, entryClearError ctx)
  | .interrupted, .CANCEL => (.idle, entryClearError ctx)
  | .interrupted, .CLEAR_ERROR => (.interrupted, { error := none })
  | .interrupted, .ERROR _ => (.error, entryClearError (assignError ctx "An error occurred"))
  | .error, .RETRY => (.listening, entryClearError ctx)
  | .error, .READY => (.ready, entryClearError ctx)
  | .error, .CANCEL => (.idle, entryClearError ctx)
  | .error, .START => (.starting, entryClearError ctx)
  | .error, .CLEAR_ERROR => (.error, { error := none })
  | _, _ => (s, ctx)

/-- Run the machine over a list of events. -/
def machineRun (s : Phase) (ctx : MContext) : List MEvent → Phase × MContext
  | [] => (s, ctx)
  | e :: es => machineRun (machineStep s ctx e).1 (machineStep s ctx e).2 es

/-! Client component: `VADVoiceClient.tsx`. -/

/-- The `pendingRequestRef` payload: `{ audioData, language, timestamp }`.
`audioData` abstracts the stored `Float32Array` of samples; `timestamp` is
`Date.now()` in milliseconds at submission. -/
structure PendingRequest where
  audioData : List Int
  language : String
  timestamp : Nat
deriving DecidableEq, Repr

/-- Messages the client hands to `wsManager.send` (payload fields that the
claims mention; the real `audio_chunk` carries the WAV+base64 re-encoding
of `audioData`, abstracted here to the samples themselves). -/
inductive WsSend
  | audioChunk (audioData : List Int) (language : String)
  | endAudio (language : String)
  | pingMsg
  | interruptMsg
  | initMsg (language : String)
deriving DecidableEq, Repr

/-- The mutable refs of `VADVoiceClient` that the modelled handlers read
and write. -/
structure ClientState where
  isProcessingRef : Bool
  conversationActiveRef : Bool
  isCleaningUp : Bool
  isPlayingRef : Bool
  isAudioLoadingRef : Bool
  activeAudioElement : Bool
  audioVizIsPlaying : Bool
  lastInterruptionTime : Nat
  failedAudioAttempts : Nat
  pendingRequest : Option PendingRequest
deriving DecidableEq, Repr

/-- Model of `retryPendingRequest` (VADVoiceClient): given the current
`Date.now()` and the pending-request slot, returns the new slot and the
messages sent.  A missing request is a no-op; a request older than five
minutes (`now - pendingRequest.timestamp > 5 * 60 * 1000`) is discarded
without sending; otherwise the stored audio is re-encoded and one
`audio_chunk` followed by one `end_audio` is sent (the slot is not
cleared by the function itself). -/
def retryPendingRequest (now : Nat) (p : Option PendingRequest) :
    Option PendingRequest × List WsSend :=
  match p with
  | none => (none, [])
  | some pr =>
      if 5 * 60 * 1000 < now - pr.timestamp then (none, [])
      else (some pr,
        [WsSend.audioChunk pr.audioData pr.language, WsSend.endAudio pr.language])

/-- Model of the pending-request part of the manager's `onOpen` callback in
`startVoiceAssistant`: when `pendingRequestRef.current` is non-null it
schedules exactly one `setTimeout(() => retryPendingRequest(), 1000)`;
otherwise none.  The value is the number of `retryPendingRequest`
invocations scheduled by this `onOpen` firing. -/
def onOpenRetryCalls (p : Option PendingRequest) : Nat :=
  match p with
  | some _ => 1
  | none => 0

/-- Model of the state-timeout monitor effect (the 10-second
`window.setTimeout` re-armed on every `state.value` change): when it fires
it sends `READY` if the machine is in `starting`, sends `READY` if the
machine is in `processing` and `!isProcessingRef.current`, and otherwise
sends nothing. -/
def stateTimeoutMonitorFires (v : Phase) (isProcessingRef : Bool) : List MEvent :=
  if v = Phase.starting then [MEvent.READY]
  else if v = Phase.processing ∧ isProcessingRef = false then [MEvent.READY]
  else []

/-- Model of the 30-second `setTimeout` armed in `onSpeechEnd` ("Add
timeout to prevent stuck processing state"): when it fires with
`isProcessingRef.current` still true it clears the flags and sends
`ERROR "Processing timeout - please try again"`; otherwise nothing. -/
def processingTimeoutFires (isProcessingRef : Bool) : List MEvent :=
  if isProcessingRef then [MEvent.ERROR "Processing timeout - please try again"] else []

/-- Model of `handleInterruption`: returns the machine events sent, the
transport messages sent, whether `pause()` was invoked on the active audio
element in the same synchronous call, and the updated refs.  Calls within
500ms of the previous interruption return immediately.  Otherwise the
active element is paused and its `src` cleared, an `interrupt` message is
sent when the socket is connected, and the single machine event emitted is
`INTERRUPT` (the 500ms-delayed tail only resumes the VAD and resets
`isProcessingRef`; it sends no machine event). -/
def handleInterruption (cl : ClientState) (wsConnected : Bool) (now : Nat) :
    List MEvent × List WsSend × Bool × ClientState :=
  if now - cl.lastInterruptionTime < 500 then ([], [], false, cl)
  else
    let cl1 := { cl with lastInterruptionTime := now,
                         isProcessingRef := true,
                         conversationActiveRef := false,
                         audioVizIsPlaying := false }
    ([MEvent.INTERRUPT],
     if wsConnected then [WsSend.interruptMsg] else [],
     cl.activeAudioElement,
     cl1)

/-- The part of `handleInterruption` deferred by `setTimeout(..., 500)`:
resume the VAD and reset `isProcessingRef`; no machine event is sent. -/
def handleInterruptionDelayed (cl : ClientState) : List MEvent × ClientState :=
  ([], { cl with isProcessingRef := false })

/-- Model of the VAD `onSpeechStart` callback: blocked while processing or
cleaning up; routed to `handleInterruption` when TTS is playing
(`audioVizRef.current?.isPlaying && activeAudioElementRef.current`);
debounced when already listening or a conversation is active; otherwise it
stops any leftover audio element, marks the conversation active and sends
`SPEECH_START`. -/
def onSpeechStart (cl : ClientState) (phase : Phase) (wsConnected : Bool) (now : Nat) :
    List MEvent × List WsSend × Bool × ClientState :=
  if cl.isProcessingRef || cl.isCleaningUp then ([], [], false, cl)
  else if cl.audioVizIsPlaying && cl.activeAudioElement then
    handleInterruption cl wsConnected now
  else if phase = Phase.listening ∨ cl.conversationActiveRef = true then
    ([], [], false, cl)
  else
    ([MEvent.SPEECH_START], [], cl.activeAudioElement,
     { cl with conversationActiveRef := true })

/-- Model of the VAD `onSpeechEnd` callback: blocked while processing or
cleaning up; with absent or zero-length audio it only sends `SPEECH_END`
and returns; otherwise it sends `SPEECH_END`, sets `isProcessingRef`, and
either stores the utterance as the pending request for retry (socket not
connected, not mid-playback) or sends `audio_chunk` then `end_audio` and
stores the pending request. -/
def onSpeechEnd (cl : ClientState) (wsConnected : Bool)
    (audioData : List Int) (language : String) (now : Nat) :
    List MEvent × List WsSend × ClientState :=
  if cl.isProcessingRef || cl.isCleaningUp then ([], [], cl)
  else if audioData.length = 0 then ([MEvent.SPEECH_END], [], cl)
  else
    let cl1 := { cl with isProcessingRef := true, conversationActiveRef := false }
    if !wsConnected then
      if cl1.isPlayingRef || cl1.isAudioLoadingRef then ([MEvent.SPEECH_END], [], cl1)
      else
        ([MEvent.SPEECH_END], [],
         { cl1 with pendingRequest := some ⟨audioData, language, now⟩,
                    isProcessingRef := false,
                    conversationActiveRef := false })
    else
      ([MEvent.SPEECH_END],
       [WsSend.audioChunk audioData language, WsSend.endAudio language],
       { cl1 with pendingRequest := some ⟨audioData, language, now⟩ })

/-- Substring containment on strings, as character lists (the model of
JavaScript `String.prototype.includes`). -/
def strContains (s pat : String) : Bool :=
  decide (pat.toList <:+: s.toList)

/-- Model of the `tts_stream_url` URL validation of
`handleWebSocketMessage`: the exact boolean condition guarding the
playback branch, in source order. -/
def validTtsUrl (url : String) : Bool :=
  !(url == "") &&
  !(url == "http://localhost:3000/") &&
  !(url == "http://localhost:3000") &&
  !(url == "http://localhost:3001/") &&
  !(url == "http://localhost:3001") &&
  !(url == "https://finance-advisor-frontend.suyesh.workers.dev/") &&
  !(strContains url "localhost") &&
  !(strContains url "finance-advisor-frontend.suyesh.workers.dev") &&
  strContains url "r2.dev"

/-- A definition of URL validity in the words of the claim (for comparison
with `validTtsUrl`, which is taken from the source): the url contains
"r2.dev" and contains neither "localhost" nor the known frontend host. -/
def validTtsUrlClaim (url : String) : Bool :=
  strContains url "r2.dev" &&
  !(strContains url "localhost") &&
  !(strContains url "finance-advisor-frontend.suyesh.workers.dev")

/-- Outcome of one `tts_stream_url` message. -/
inductive TtsOutcome
  | playbackStarted
  | simulatedResponse
  | errorEscalated
deriving DecidableEq, Repr

/-- Model of `debouncedSend`: every call clears the shared
`stateUpdateTimeoutRef` and re-arms it with the new event at a 25 ms
delay, so of a burst of calls issued in one synchronous tick only the
last event is actually dispatched to the machine.  The input is the list
of bursts (consecutive same-tick `debouncedSend` calls, bursts separated
by more than the 25 ms debounce delay); the output is the sequence of
events delivered to the machine. -/
def debouncedDeliver (bursts : List (List MEvent)) : List MEvent :=
  (bursts.map (fun b => b.getLast?.toList)).flatten

/-- Model of the `tts_stream_url` case of `handleWebSocketMessage`.  With a
valid URL a playback session is created (audio element allocated, counter
reset, `isProcessingRef` cleared); with an invalid URL
`failedAudioAttemptsRef` is incremented, and either (counter now at least
3) `debouncedSend` is called with `ERROR "Audio service temporarily
unavailable. Please try again later."` and the counter reset, or (first
two consecutive failures) a response is simulated for three seconds after
which `debouncedSend` is called with `LISTEN` and then `CLEAR_ERROR`.
The second component is the list of `debouncedSend` bursts the branch
issues: the simulate branch issues `LISTEN` and `CLEAR_ERROR` in one
synchronous tick (inside the 3 s timeout's inner 100 ms timeout); the
escalate branch issues `ERROR` synchronously — its 25 ms debounce fires
before the 100 ms cleanup timeout, so it is its own burst — and then
`LISTEN`/`CLEAR_ERROR` in one tick from the cleanup timeout.  What the
machine actually receives is `debouncedDeliver` of these bursts. -/
def handleTtsStreamUrl (cl : ClientState) (url : String) :
    TtsOutcome × List (List MEvent) × ClientState :=
  if validTtsUrl url then
    (TtsOutcome.playbackStarted, [],
     { cl with activeAudioElement := true,
               isProcessingRef := false,
               failedAudioAttempts := 0 })
  else
    if 3 ≤ cl.failedAudioAttempts + 1 then
      (TtsOutcome.errorEscalated,
       [[MEvent.ERROR "Audio service temporarily unavailable. Please try again later."],
        [MEvent.LISTEN, MEvent.CLEAR_ERROR]],
       { cl with failedAudioAttempts := 0,
                 isProcessingRef := false,
                 conversationActiveRef := false })
    else
      (TtsOutcome.simulatedResponse,
       [[MEvent.LISTEN, MEvent.CLEAR_ERROR]],
       { cl with failedAudioAttempts := cl.failedAudioAttempts + 1,
                 isProcessingRef := false,
                 conversationActiveRef := false })

/-- Model of the `pong` case of `handleWebSocketMessage`: the case body is
empty (`// Handle pong response for connection keep-alive` followed by
`break`), so nothing in the client or the manager changes. -/
def clientHandlePong (st : WSManagerState) (cl : ClientState) :
    WSManagerState × ClientState :=
  (st, cl)

/-- Every call site in `VADVoiceClient.tsx` that sends events to the state
machine (via `send`, `sendRef.current` or `debouncedSend`).  Constructors
with a `String` argument stand for sites whose error text is built from a
runtime value. -/
inductive EmitSite
  | ttsErrorListener
  | stateMonitorStarting
  | stateMonitorProcessing
  | languageChange
  | vadSpeechStart
  | vadSpeechEnd
  | vadProcessingTimeout
  | vadReconnectFailure
  | vadAudioProcessingError
  | vadMisfire
  | vadStartError (msg : String)
  | vadInitDone
  | vadInitError (msg : String)
  | audioOnPlay
  | audioLoadTimeoutFail
  | audioPlayTimeout
  | audioNotAllowedRecovery
  | audioPlayErrorCleanup
  | streamUrlCatch
  | invalidUrlEscalate
  | invalidUrlSimulate
  | invalidUrlCleanup
  | serverErrorMessage
  | interruptionHandler
  | startAssistant
  | wsOnOpen
  | wsOnCloseFailure
  | wsOnCloseOther (reason : String)
  | wsOnError
  | wsOnReconnectFailed
  | startAssistantCatch (msg : String)
  | audioEnded
  | audioErrorReal
  | changeLanguageButton
deriving DecidableEq, Repr

/-- The machine events each call site of `VADVoiceClient.tsx` emits, in
program order, transcribed from the source. -/
def clientEmits : EmitSite → List MEvent
  | .ttsErrorListener => [.LISTEN, .CLEAR_ERROR]
  | .stateMonitorStarting => [.READY]
  | .stateMonitorProcessing => [.READY]
  | .languageChange => [.CANCEL]
  | .vadSpeechStart => [.SPEECH_START]
  | .vadSpeechEnd => [.SPEECH_END]
  | .vadProcessingTimeout => [.ERROR "Processing timeout - please try again"]
  | .vadReconnectFailure =>
      [.ERROR "Connection lost. Please try again.", .READY, .READY]
  | .vadAudioProcessingError => [.ERROR "Audio processing error"]
  | .vadMisfire => [.INTERRUPT]
  | .vadStartError msg => [.ERROR ("VAD start failed: " ++ msg)]
  | .vadInitDone => [.READY, .LISTEN, .CLEAR_ERROR]
  | .vadInitError msg => [.ERROR ("VAD initialization failed: " ++ msg)]
  | .audioOnPlay => [.RESPONSE_READY]
  | .audioLoadTimeoutFail => [.LISTEN, .CLEAR_ERROR]
  | .audioPlayTimeout => [.LISTEN, .CLEAR_ERROR]
  | .audioNotAllowedRecovery => [.LISTEN, .CLEAR_ERROR]
  | .audioPlayErrorCleanup => [.LISTEN, .CLEAR_ERROR]
  | .streamUrlCatch => [.LISTEN, .CLEAR_ERROR]
  | .invalidUrlEscalate =>
      [.ERROR "Audio service temporarily unavailable. Please try again later."]
  | .invalidUrlSimulate => [.LISTEN, .CLEAR_ERROR]
  | .invalidUrlCleanup => [.LISTEN, .CLEAR_ERROR]
  | .serverErrorMessage => [.LISTEN, .CLEAR_ERROR]
  | .interruptionHandler => [.INTERRUPT]
  | .startAssistant => [.START, .CLEAR_ERROR]
  | .wsOnOpen => [.READY, .CLEAR_ERROR, .LISTEN]
  | .wsOnCloseFailure =>
      [.ERROR "Cannot connect to voice assistant server. Please check your internet connection and try again."]
  | .wsOnCloseOther reason => [.ERROR ("WebSocket closed: " ++ reason)]
  | .wsOnError => [.ERROR "Failed to connect to voice assistant"]
  | .wsOnReconnectFailed => [.ERROR "Connection lost. Please try again."]
  | .startAssistantCatch msg => [.ERROR ("Failed to start: " ++ msg)]
  | .audioEnded => [.END, .LISTEN, .CLEAR_ERROR]
  | .audioErrorReal => [.END, .LISTEN, .CLEAR_ERROR]
  | .changeLanguageButton => [.CANCEL]

/-- All machine events produced by a sequence of client call-site firings,
in order. -/
def emittedEvents (sites : List EmitSite) : List MEvent :=
  (sites.map clientEmits).flatten

/-- Baseline client refs as they are initialised on mount. -/
def cl0 : ClientState :=
  { isProcessingRef := false
    conversationActiveRef := false
    isCleaningUp := false
    isPlayingRef := false
    isAudioLoadingRef := false
    activeAudioElement := false
    audioVizIsPlaying := false
    lastInterruptionTime := 0
    failedAudioAttempts := 0
    pendingRequest := none }

/-! Theorems. -/

/-- C1: on reconnection success (the transport's `onOpen` firing) with a
`PendingRequest` present, a request aged at most five minutes is re-encoded
and resent exactly once — one `audio_chunk` followed by one `end_audio`,
scheduled by a single retry invocation, not a loop — while a request older
than five minutes is discarded without being resent. -/
theorem c1_pending_request_retry (pr : PendingRequest) (now : Nat) :
    (now - pr.timestamp ≤ 5 * 60 * 1000 →
      retryPendingRequest now (some pr) =
        (some pr, [WsSend.audioChunk pr.audioData pr.language,
                   WsSend.endAudio pr.language]) ∧
      onOpenRetryCalls (some pr) = 1) ∧
    (5 * 60 * 1000 < now - pr.timestamp →
      retryPendingRequest now (some pr) = (none, [])) := by
  constructor
  · intro h
    refine ⟨?_, rfl⟩
    simp only [retryPendingRequest]
    rw [if_neg (by omega)]
  · intro h
    simp only [retryPendingRequest]
    rw [if_pos h]

/-- Witness for C1 at concrete inputs: a fresh request (age 500ms) is
resent as one chunk plus one end marker by one scheduled retry call, and a
stale request (age well over five minutes) is dropped. -/
theorem c1_pending_request_retry_witness :
    (retryPendingRequest 1000 (some ⟨[1, 2], "en", 500⟩) =
      (some ⟨[1, 2], "en", 500⟩,
       [WsSend.audioChunk [1, 2] "en", WsSend.endAudio "en"]) ∧
     onOpenRetryCalls (some ⟨[1, 2], "en", 500⟩) = 1) ∧
    retryPendingRequest 400000 (some ⟨[1, 2], "en", 500⟩) = (none, []) :=
  ⟨(c1_pending_request_retry ⟨[1, 2], "en", 500⟩ 1000).1 (by norm_num),
   (c1_pending_request_retry ⟨[1, 2], "en", 500⟩ 400000).2 (by norm_num)⟩

/-- C2: the heartbeat timeout callback closes any channel that is still
open and not destroyed, and the client's `pong` handler changes nothing at
all — so a pong arriving before the timeout does not prevent the close.
Evaluated at an open, live manager that has just processed a pong: the
timeout still closes the channel, contradicting the claim that a timely
pong prevents the heartbeat close. -/
theorem c2_heartbeat_ignores_pong :
    (∀ st cl, clientHandlePong st cl = (st, cl)) ∧
    heartbeatTimeoutCloses
      (clientHandlePong
        { ws := some ReadyState.OPEN, isDestroyed := false,
          isIntentionalClose := false, reconnectAttempts := 0,
          messageQueue := [], socketsCreated := 1 } cl0).1 = true :=
  ⟨fun _ _ => rfl, rfl⟩

/-- C3 counterexample: in the scenario of the claim — the machine in
Processing with a request in flight and no reply — the 10-second state
monitor emits nothing, and the 30-second processing timeout drives the
machine to Error, not Ready. -/
theorem c3_processing_watchdog_counterexample :
    stateTimeoutMonitorFires Phase.processing true = [] ∧
    machineRun Phase.processing { error := none } (processingTimeoutFires true) =
      (Phase.error, { error := none }) ∧
    Phase.error ≠ Phase.ready :=
  ⟨rfl, rfl, by decide⟩

/-- C3 amended: the machine is forced out of Processing within the
30-second ceiling in either case, but the destination depends on whether a
request is in flight: with `isProcessingRef` false the 10-second monitor
sends `READY` and the machine reaches Ready; with it true the 30-second
processing timeout sends an `ERROR` event and the machine reaches Error. -/
theorem c3_processing_watchdog (b : Bool) :
    (machineRun Phase.processing { error := none }
        (stateTimeoutMonitorFires Phase.processing b ++ processingTimeoutFires b)).1 ≠
      Phase.processing ∧
    machineRun Phase.processing { error := none }
        (stateTimeoutMonitorFires Phase.processing false) =
      (Phase.ready, { error := none }) ∧
    machineRun Phase.processing { error := none } (processingTimeoutFires true) =
      (Phase.error, { error := none }) := by
  cases b <;> exact ⟨by decide, rfl, rfl⟩

/-- Witness for C3 amended at the in-flight case. -/
theorem c3_processing_watchdog_witness :
    (machineRun Phase.processing { error := none }
        (stateTimeoutMonitorFires Phase.processing true ++
          processingTimeoutFires true)).1 ≠ Phase.processing :=
  (c3_processing_watchdog true).1

/-- C5 counterexample: calling `connect()` while the underlying socket is
in `CONNECTING` is not a no-op — a second `new WebSocket` is executed and
the manager state changes. -/
theorem c5_connect_while_connecting_creates_socket :
    (connect { ws := some ReadyState.CONNECTING, isDestroyed := false,
               isIntentionalClose := false, reconnectAttempts := 0,
               messageQueue := [], socketsCreated := 1 }).socketsCreated = 2 ∧
    connect { ws := some ReadyState.CONNECTING, isDestroyed := false,
              isIntentionalClose := false, reconnectAttempts := 0,
              messageQueue := [], socketsCreated := 1 } ≠
      { ws := some ReadyState.CONNECTING, isDestroyed := false,
        isIntentionalClose := false, reconnectAttempts := 0,
        messageQueue := [], socketsCreated := 1 } := by
  exact ⟨rfl, by decide⟩

/-- C5 amended: `connect()` is an idempotent no-op exactly while the
socket is already `OPEN` (or the manager is destroyed); in every other
condition, including `CONNECTING`, it constructs a fresh underlying
WebSocket. -/
theorem c5_connect_idempotent_only_when_open (st : WSManagerState) :
    (st.ws = some ReadyState.OPEN → connect st = st) ∧
    (st.isDestroyed = true → connect st = st) ∧
    (st.isDestroyed = false → st.ws ≠ some ReadyState.OPEN →
      (connect st).ws = some ReadyState.CONNECTING ∧
      (connect st).socketsCreated = st.socketsCreated + 1) := by
  refine ⟨fun h => ?_, fun h => ?_, fun h1 h2 => ?_⟩
  · unfold connect
    rw [if_pos h]
    split <;> rfl
  · unfold connect
    rw [if_pos h]
  · unfold connect
    rw [if_neg (by simp [h1]), if_neg h2]
    exact ⟨rfl, rfl⟩

/-- Witness for C5 amended, at an open manager and a closed one. -/
theorem c5_connect_idempotent_only_when_open_witness :
    connect { ws := some ReadyState.OPEN, isDestroyed := false,
              isIntentionalClose := false, reconnectAttempts := 0,
              messageQueue := [], socketsCreated := 1 } =
      { ws := some ReadyState.OPEN, isDestroyed := false,
        isIntentionalClose := false, reconnectAttempts := 0,
        messageQueue := [], socketsCreated := 1 } ∧
    (connect { ws := some ReadyState.CLOSED, isDestroyed := false,
               isIntentionalClose := false, reconnectAttempts := 0,
               messageQueue := [], socketsCreated := 1 }).ws =
      some ReadyState.CONNECTING :=
  ⟨(c5_connect_idempotent_only_when_open _).1 rfl,
   ((c5_connect_idempotent_only_when_open _).2.2 rfl (by decide)).1⟩

/-- C7: entering the Error state does clear the error slot — the `error`
state's own `entry` action assigns `error: null` after the transition's
`assign` set the message, so the message set by the triggering `ERROR`
event does not remain visible (evaluated at two concrete failing inputs,
and shown directly on the composed assigns). -/
theorem c7_error_entry_clears_message :
    machineStep Phase.listening { error := none } (MEvent.ERROR "boom") =
      (Phase.error, { error := none }) ∧
    machineStep Phase.processing { error := some "stale" }
        (MEvent.ERROR "Processing timeout - please try again") =
      (Phase.error, { error := none }) ∧
    entryClearError (assignError { error := none } "An error occurred") =
      { error := none } :=
  ⟨rfl, rfl, rfl⟩

/-- C9 counterexample: a speech-end with zero-length audio sends
`SPEECH_END`, and `SPEECH_END` in Listening moves the machine to
Processing, not to Ready — even though nothing is sent to the server. -/
theorem c9_zero_audio_counterexample :
    onSpeechEnd cl0 true [] "en" 0 = ([MEvent.SPEECH_END], [], cl0) ∧
    machineStep Phase.listening { error := none } MEvent.SPEECH_END =
      (Phase.processing, { error := none }) ∧
    Phase.processing ≠ Phase.ready :=
  ⟨rfl, rfl, by decide⟩

/-- C9 amended: a speech-end whose audio is absent or zero-length sends
nothing to the remote service and leaves the refs untouched, but it does
emit `SPEECH_END`, which moves Listening to Processing; the machine then
reaches Ready only through the 10-second state monitor, which fires
`READY` because no request is in flight. -/
theorem c9_zero_audio_no_send (cl : ClientState) (wsConnected : Bool)
    (language : String) (now : Nat)
    (h1 : cl.isProcessingRef = false) (h2 : cl.isCleaningUp = false) :
    onSpeechEnd cl wsConnected [] language now = ([MEvent.SPEECH_END], [], cl) ∧
    machineStep Phase.listening { error := none } MEvent.SPEECH_END =
      (Phase.processing, { error := none }) ∧
    stateTimeoutMonitorFires Phase.processing cl.isProcessingRef = [MEvent.READY] ∧
    machineStep Phase.processing { error := none } MEvent.READY =
      (Phase.ready, { error := none }) := by
  refine ⟨?_, rfl, ?_, rfl⟩
  · unfold onSpeechEnd
    rw [if_neg (by simp [h1, h2])]
    rw [if_pos (by simp)]
  · rw [h1]
    rfl

/-- Witness for C9 amended at the baseline client state. -/
theorem c9_zero_audio_no_send_witness :
    onSpeechEnd cl0 true [] "en" 0 = ([MEvent.SPEECH_END], [], cl0) ∧
    stateTimeoutMonitorFires Phase.processing cl0.isProcessingRef = [MEvent.READY] :=
  ⟨(c9_zero_audio_no_send cl0 true "en" 0 rfl rfl).1,
   (c9_zero_audio_no_send cl0 true "en" 0 rfl rfl).2.2.1⟩

/-- C4 counterexample: a barge-in speech-start while Responding with an
active playback session emits only `INTERRUPT`; after every event the
handler emits, the machine is in Interrupted, not Listening — no `RESUME`
or `LISTEN` is ever sent, so listening does not resume automatically. -/
theorem c4_barge_in_counterexample :
    (onSpeechStart { cl0 with audioVizIsPlaying := true, activeAudioElement := true }
        Phase.responding true 1000).1 = [MEvent.INTERRUPT] ∧
    (machineRun Phase.responding { error := none }
        (onSpeechStart { cl0 with audioVizIsPlaying := true, activeAudioElement := true }
          Phase.responding true 1000).1).1 = Phase.interrupted ∧
    MEvent.RESUME ∉
      (onSpeechStart { cl0 with audioVizIsPlaying := true, activeAudioElement := true }
        Phase.responding true 1000).1 ∧
    MEvent.LISTEN ∉
      (onSpeechStart { cl0 with audioVizIsPlaying := true, activeAudioElement := true }
        Phase.responding true 1000).1 ∧
    Phase.interrupted ≠ Phase.listening ∧
    (∀ t : EmitSite, MEvent.RESUME ∉ clientEmits t) := by
  refine ⟨rfl, rfl, by decide, by decide, by decide, ?_⟩
  intro t
  cases t <;> simp [clientEmits]

/-- C4 amended: a speech-start while the assistant is playing (active
audio element, visualiser playing, not debounced by a recent interruption)
stops the device in the same synchronous call, sends `interrupt` on the
channel when connected, and emits `INTERRUPT`, moving the machine from
Responding to Interrupted; the 500ms-delayed tail resumes the VAD without
emitting any machine event, so the state machine remains in Interrupted
rather than resuming Listening. -/
theorem c4_barge_in (cl : ClientState) (wsConnected : Bool) (now : Nat)
    (h1 : cl.isProcessingRef = false) (h2 : cl.isCleaningUp = false)
    (h3 : cl.audioVizIsPlaying = true) (h4 : cl.activeAudioElement = true)
    (h5 : 500 ≤ now - cl.lastInterruptionTime) :
    (onSpeechStart cl Phase.responding wsConnected now).1 = [MEvent.INTERRUPT] ∧
    (onSpeechStart cl Phase.responding wsConnected now).2.2.1 = true ∧
    (onSpeechStart cl Phase.responding wsConnected now).2.1 =
      (if wsConnected then [WsSend.interruptMsg] else []) ∧
    (machineRun Phase.responding { error := none }
        (onSpeechStart cl Phase.responding wsConnected now).1).1 = Phase.interrupted ∧
    (handleInterruptionDelayed
        (onSpeechStart cl Phase.responding wsConnected now).2.2.2).1 = [] := by
  have hs : onSpeechStart cl Phase.responding wsConnected now =
      handleInterruption cl wsConnected now := by
    unfold onSpeechStart
    rw [if_neg (by simp [h1, h2]), if_pos (by simp [h3, h4])]
  have hi : handleInterruption cl wsConnected now =
      ([MEvent.INTERRUPT],
       if wsConnected then [WsSend.interruptMsg] else [],
       cl.activeAudioElement,
       { cl with lastInterruptionTime := now,
                 isProcessingRef := true,
                 conversationActiveRef := false,
                 audioVizIsPlaying := false }) := by
    unfold handleInterruption
    rw [if_neg (by omega)]
  rw [hs, hi]
  exact ⟨rfl, h4, rfl, rfl, rfl⟩

/-- Witness for C4 amended at a concrete barge-in scenario. -/
theorem c4_barge_in_witness :
    (onSpeechStart { cl0 with audioVizIsPlaying := true, activeAudioElement := true }
        Phase.responding true 1000).1 = [MEvent.INTERRUPT] ∧
    (onSpeechStart { cl0 with audioVizIsPlaying := true, activeAudioElement := true }
        Phase.responding true 1000).2.2.1 = true :=
  ⟨(c4_barge_in _ true 1000 rfl rfl rfl rfl (by decide)).1,
   (c4_barge_in _ true 1000 rfl rfl rfl rfl (by decide)).2.1⟩

/-- The source's URL-validation condition coincides with the claim's: the
explicit localhost/frontend literal comparisons are subsumed by the
substring checks, and a URL containing "r2.dev" is necessarily
non-empty. -/
theorem validTtsUrl_eq_claim (url : String) : validTtsUrl url = validTtsUrlClaim url := by
  unfold validTtsUrl validTtsUrlClaim
  rcases hR : strContains url "r2.dev" with _ | _
  · simp
  · rcases hL : strContains url "localhost" with _ | _
    · rcases hF : strContains url "finance-advisor-frontend.suyesh.workers.dev" with _ | _
      · have h0 : (url == "") = false := by
          rcases Decidable.em (url = "") with h | h
          · rw [h] at hR
            exact absurd hR (by decide)
          · simp [h]
        have h1 : (url == "http://localhost:3000/") = false := by
          rcases Decidable.em (url = "http://localhost:3000/") with h | h
          · rw [h] at hL
            exact absurd hL (by decide)
          · simp [h]
        have h2 : (url == "http://localhost:3000") = false := by
          rcases Decidable.em (url = "http://localhost:3000") with h | h
          · rw [h] at hL
            exact absurd hL (by decide)
          · simp [h]
        have h3 : (url == "http://localhost:3001/") = false := by
          rcases Decidable.em (url = "http://localhost:3001/") with h | h
          · rw [h] at hL
            exact absurd hL (by decide)
          · simp [h]
        have h4 : (url == "http://localhost:3001") = false := by
          rcases Decidable.em (url = "http://localhost:3001") with h | h
          · rw [h] at hL
            exact absurd hL (by decide)
          · simp [h]
        have h5 : (url == "https://finance-advisor-frontend.suyesh.workers.dev/") = false := by
          rcases Decidable.em (url = "https://finance-advisor-frontend.suyesh.workers.dev/")
            with h | h
          · rw [h] at hF
            exact absurd hF (by decide)
          · simp [h]
        simp [h0, h1, h2, h3, h4, h5, hR, hL, hF]
      · simp [hF]
    · simp [hL]

/-- C10 counterexample: a first invalid URL at counter 0 issues the
`LISTEN`/`CLEAR_ERROR` pair through the shared debounce, where the
`CLEAR_ERROR` call cancels the queued `LISTEN` — only `CLEAR_ERROR` is
delivered, so the machine does not return to Listening: it stays in
Processing (`CLEAR_ERROR` is internal) and reaches Ready via the
10-second state monitor. -/
theorem c10_simulate_no_listen_counterexample :
    handleTtsStreamUrl cl0 "http://localhost:3000/" =
      (TtsOutcome.simulatedResponse, [[MEvent.LISTEN, MEvent.CLEAR_ERROR]],
       { cl0 with failedAudioAttempts := 1,
                  isProcessingRef := false, conversationActiveRef := false }) ∧
    debouncedDeliver [[MEvent.LISTEN, MEvent.CLEAR_ERROR]] = [MEvent.CLEAR_ERROR] ∧
    MEvent.LISTEN ∉ debouncedDeliver [[MEvent.LISTEN, MEvent.CLEAR_ERROR]] ∧
    (machineRun Phase.processing { error := none }
        (debouncedDeliver [[MEvent.LISTEN, MEvent.CLEAR_ERROR]])).1 =
      Phase.processing ∧
    machineRun Phase.processing { error := none }
        (debouncedDeliver [[MEvent.LISTEN, MEvent.CLEAR_ERROR]] ++
          stateTimeoutMonitorFires Phase.processing false) =
      (Phase.ready, { error := none }) ∧
    Phase.ready ≠ Phase.listening := by
  refine ⟨by decide, rfl, by decide, rfl, rfl, by decide⟩

/-- C10 amended: a playback session is created exactly for a valid URL,
validity coincides with the claim's condition (contains "r2.dev",
contains neither "localhost" nor the known frontend host), and on an
invalid URL the consecutive-failure counter is incremented.  The first
two failures simulate a response and issue `LISTEN` then `CLEAR_ERROR`
through the shared debounce, which cancels the `LISTEN`, so only
`CLEAR_ERROR` is delivered and the machine — left in Processing — reaches
Ready via the 10-second monitor, not Listening.  The third consecutive
failure delivers the `ERROR` event (its debounce fires before the cleanup
tick), driving the machine to Error, and resets the counter to zero; a
valid URL also resets the counter. -/
theorem c10_tts_url_policy (cl : ClientState) (url : String) :
    ((handleTtsStreamUrl cl url).1 = TtsOutcome.playbackStarted ↔
      validTtsUrl url = true) ∧
    validTtsUrl url = validTtsUrlClaim url ∧
    (validTtsUrl url = false →
      (cl.failedAudioAttempts + 1 < 3 →
        handleTtsStreamUrl cl url =
          (TtsOutcome.simulatedResponse, [[MEvent.LISTEN, MEvent.CLEAR_ERROR]],
           { cl with failedAudioAttempts := cl.failedAudioAttempts + 1,
                     isProcessingRef := false, conversationActiveRef := false }) ∧
        debouncedDeliver [[MEvent.LISTEN, MEvent.CLEAR_ERROR]] =
          [MEvent.CLEAR_ERROR] ∧
        machineRun Phase.processing { error := none }
            (debouncedDeliver [[MEvent.LISTEN, MEvent.CLEAR_ERROR]] ++
              stateTimeoutMonitorFires Phase.processing false) =
          (Phase.ready, { error := none })) ∧
      (3 ≤ cl.failedAudioAttempts + 1 →
        handleTtsStreamUrl cl url =
          (TtsOutcome.errorEscalated,
           [[MEvent.ERROR "Audio service temporarily unavailable. Please try again later."],
            [MEvent.LISTEN, MEvent.CLEAR_ERROR]],
           { cl with failedAudioAttempts := 0,
                     isProcessingRef := false, conversationActiveRef := false }) ∧
        (machineRun Phase.processing { error := none }
            (debouncedDeliver
              [[MEvent.ERROR "Audio service temporarily unavailable. Please try again later."],
               [MEvent.LISTEN, MEvent.CLEAR_ERROR]])).1 = Phase.error)) ∧
    (validTtsUrl url = true →
      (handleTtsStreamUrl cl url).2.2.failedAudioAttempts = 0) := by
  refine ⟨?_, validTtsUrl_eq_claim url,
    fun hinv => ⟨fun hlt => ⟨?_, rfl, rfl⟩, fun hge => ⟨?_, rfl⟩⟩, fun hv => ?_⟩
  · unfold handleTtsStreamUrl
    rcases h : validTtsUrl url with _ | _
    · rw [if_neg (by simp)]
      constructor
      · intro hc
        split at hc <;> simp_all
      · intro hc
        exact absurd hc (by simp)
    · rw [if_pos rfl]
      simp
  · unfold handleTtsStreamUrl
    rw [if_neg (by simp [hinv]), if_neg (by omega)]
  · unfold handleTtsStreamUrl
    rw [if_neg (by simp [hinv]), if_pos hge]
  · unfold handleTtsStreamUrl
    rw [if_pos hv]

/-- Witness for C10 amended: an R2 URL starts playback and resets the
counter; a localhost URL at counters 0 and 2 yields the simulated
response (with only `CLEAR_ERROR` delivered) and the escalated error
respectively. -/
theorem c10_tts_url_policy_witness :
    (handleTtsStreamUrl cl0 "https://pub-1.r2.dev/x.mp3").1 =
      TtsOutcome.playbackStarted ∧
    (handleTtsStreamUrl cl0 "http://localhost:3000/" =
      (TtsOutcome.simulatedResponse, [[MEvent.LISTEN, MEvent.CLEAR_ERROR]],
       { cl0 with failedAudioAttempts := 1,
                  isProcessingRef := false, conversationActiveRef := false }) ∧
     debouncedDeliver [[MEvent.LISTEN, MEvent.CLEAR_ERROR]] =
       [MEvent.CLEAR_ERROR] ∧
     machineRun Phase.processing { error := none }
         (debouncedDeliver [[MEvent.LISTEN, MEvent.CLEAR_ERROR]] ++
           stateTimeoutMonitorFires Phase.processing false) =
       (Phase.ready, { error := none })) ∧
    (handleTtsStreamUrl { cl0 with failedAudioAttempts := 2 }
        "http://localhost:3000/").1 = TtsOutcome.errorEscalated :=
  ⟨(c10_tts_url_policy cl0 "https://pub-1.r2.dev/x.mp3").1.mpr (by decide),
   (c10_tts_url_policy cl0 "http://localhost:3000/").2.2.1 (by decide)
     |>.1 (by decide),
   by
     rw [((c10_tts_url_policy { cl0 with failedAudioAttempts := 2 }
       "http://localhost:3000/").2.2.1 (by decide) |>.2 (by decide)).1]⟩

/-- The only transitions of `voiceAssistantMachine` whose target is the
`responding` state are the `RESPONSE_READY` ones. -/
theorem machineStep_into_responding (s : Phase) (ctx : MContext) (e : MEvent)
    (h : (machineStep s ctx e).1 = Phase.responding) :
    s = Phase.responding ∨ e = MEvent.RESPONSE_READY := by
  cases s <;> cases e <;> simp_all [machineStep]

/-- A run that ends in `responding` from a state other than `responding`
contains a `RESPONSE_READY` event. -/
theorem machineRun_into_responding (evs : List MEvent) :
    ∀ (s : Phase) (ctx : MContext), s ≠ Phase.responding →
      (machineRun s ctx evs).1 = Phase.responding →
      MEvent.RESPONSE_READY ∈ evs := by
  induction evs with
  | nil =>
      intro s ctx hs h
      exact absurd h hs
  | cons e es ih =>
      intro s ctx hs h
      by_cases h2 : (machineStep s ctx e).1 = Phase.responding
      · rcases machineStep_into_responding s ctx e h2 with h3 | h3
        · exact absurd h3 hs
        · exact h3 ▸ List.mem_cons_self _ _
      · exact List.mem_cons_of_mem _ (ih _ _ h2 h)

/-- Among all machine-event call sites of `VADVoiceClient.tsx`, only the
audio element's `onplay` handler emits `RESPONSE_READY`. -/
theorem clientEmits_response_ready (t : EmitSite)
    (h : MEvent.RESPONSE_READY ∈ clientEmits t) : t = EmitSite.audioOnPlay := by
  cases t <;> simp_all [clientEmits]

/-- C8: for every sequence of client call-site firings starting from Idle,
if the machine is in Responding then the audio element's `play` event has
fired: `RESPONSE_READY` is emitted only by the `onplay` handler — never
merely because a `tts_stream_url` arrived or the source URL was set — and
the machine enters Responding only on `RESPONSE_READY`. -/
theorem c8_responding_only_after_device_play (sites : List EmitSite)
    (h : (machineRun Phase.idle { error := none } (emittedEvents sites)).1 =
      Phase.responding) :
    EmitSite.audioOnPlay ∈ sites := by
  have h1 : MEvent.RESPONSE_READY ∈ emittedEvents sites :=
    machineRun_into_responding _ _ _ (by decide) h
  rw [emittedEvents, List.mem_flatten] at h1
  obtain ⟨l, hl, hmem⟩ := h1
  obtain ⟨t, ht, rfl⟩ := List.mem_map.mp hl
  exact (clientEmits_response_ready t hmem) ▸ ht

/-- Witness for C8: the `onplay` call site itself drives the machine into
Responding, and it is a member of the fired-site list. -/
theorem c8_responding_only_after_device_play_witness :
    (machineRun Phase.idle { error := none }
        (emittedEvents [EmitSite.audioOnPlay])).1 = Phase.responding ∧
    EmitSite.audioOnPlay ∈ [EmitSite.audioOnPlay] :=
  ⟨by decide, c8_responding_only_after_device_play [EmitSite.audioOnPlay] (by decide)⟩

/-- Draining the flush loop sends exactly the queued messages, in queue
order, despite the batching by tens. -/
theorem flushMessageQueue_eq {α : Type} : ∀ l : List α, flushMessageQueue l = l
  | [] => by rw [flushMessageQueue]
  | x :: rest => by
      rw [flushMessageQueue, flushMessageQueue_eq ((x :: rest).drop 10),
        List.take_append_drop]
termination_by l => l.length
decreasing_by
  simp only [List.length_drop, List.length_cons]
  omega

/-- Enqueueing a submission sequence into the bounded drop-oldest queue
leaves exactly the most recent `maxSize` messages, in submission order. -/
theorem enqueueAll_eq_drop {α : Type} (maxSize : Nat) (hmax : 1 ≤ maxSize) :
    ∀ (ms q : List α), q.length ≤ maxSize →
      enqueueAll maxSize q ms = (q ++ ms).drop (q.length + ms.length - maxSize) := by
  intro ms
  induction ms with
  | nil =>
      intro q hq
      simp only [enqueueAll, List.foldl_nil, List.append_nil, List.length_nil,
        Nat.add_zero]
      rw [Nat.sub_eq_zero_of_le hq, List.drop_zero]
  | cons m rest ih =>
      intro q hq
      rw [show enqueueAll maxSize q (m :: rest) =
        enqueueAll maxSize (queueMessage maxSize q m) rest from rfl]
      by_cases hfull : maxSize ≤ q.length
      · have hqlen : q.length = maxSize := Nat.le_antisymm hq hfull
        have hne : q ≠ [] := by
          intro hnil
          rw [hnil] at hqlen
          simp at hqlen
          omega
        obtain ⟨qh, qt, rfl⟩ := List.exists_cons_of_ne_nil hne
        have hqm : queueMessage maxSize (qh :: qt) m = qt ++ [m] := by
          simp only [queueMessage, if_pos hfull, List.drop_one, List.tail_cons]
        have hq' : (qt ++ [m]).length ≤ maxSize := by
          simp only [List.length_append, List.length_singleton]
          simp only [List.length_cons] at hqlen
          omega
        rw [hqm, ih (qt ++ [m]) hq']
        have hlen : (qt ++ [m]).length + rest.length - maxSize = rest.length := by
          simp only [List.length_append, List.length_singleton]
          simp only [List.length_cons] at hqlen
          omega
        have hlen2 : (qh :: qt).length + (m :: rest).length - maxSize =
            rest.length + 1 := by
          simp only [List.length_cons] at hqlen ⊢
          omega
        rw [hlen, hlen2, List.cons_append, List.drop_succ_cons, List.append_assoc,
          List.singleton_append]
      · have hqm : queueMessage maxSize q m = q ++ [m] := by
          simp only [queueMessage, if_neg hfull]
        have hq' : (q ++ [m]).length ≤ maxSize := by
          simp only [List.length_append, List.length_cons, List.length_nil]
          omega
        rw [hqm, ih (q ++ [m]) hq']
        have hlen : (q ++ [m]).length + rest.length - maxSize =
            q.length + (m :: rest).length - maxSize := by
          simp only [List.length_append, List.length_cons, List.length_nil]
          omega
        rw [hlen, List.append_assoc, List.singleton_append]

/-- C6: submitting any sequence of messages while disconnected and
flushing after reconnection delivers exactly the most recent 100 messages
— a contiguous suffix of the submission order, hence in original
submission order — and every `audio_chunk`/`end_audio` pair whose chunk
survived the drop-oldest eviction is delivered with the chunk strictly
before its matching end marker; when at most 100 messages were submitted,
the delivered sequence is the submission sequence itself. -/
theorem c6_queue_flush_order (ms : List OutMsg) :
    flushMessageQueue (enqueueAll 100 ([] : List OutMsg) ms) =
      ms.drop (ms.length - 100) ∧
    (ms.length ≤ 100 →
      flushMessageQueue (enqueueAll 100 ([] : List OutMsg) ms) = ms) ∧
    (∀ i j u, i < j → j < ms.length → ms.length - 100 ≤ i →
      ms[i]? = some (OutMsg.audioChunk u) →
      ms[j]? = some (OutMsg.endAudio u) →
      ∃ i' j' : Nat, i' < j' ∧
        (flushMessageQueue (enqueueAll 100 ([] : List OutMsg) ms))[i']? =
          some (OutMsg.audioChunk u) ∧
        (flushMessageQueue (enqueueAll 100 ([] : List OutMsg) ms))[j']? =
          some (OutMsg.endAudio u)) := by
  have hmain : flushMessageQueue (enqueueAll 100 ([] : List OutMsg) ms) =
      ms.drop (ms.length - 100) := by
    rw [flushMessageQueue_eq,
      enqueueAll_eq_drop 100 (by norm_num) ms [] (by simp)]
    simp
  refine ⟨hmain, fun hle => ?_, fun i j u hij hj hi hci hej => ?_⟩
  · rw [hmain, Nat.sub_eq_zero_of_le hle, List.drop_zero]
  · refine ⟨i - (ms.length - 100), j - (ms.length - 100), by omega, ?_, ?_⟩
    · rw [hmain, List.getElem?_drop,
        show ms.length - 100 + (i - (ms.length - 100)) = i from by omega]
      exact hci
    · rw [hmain, List.getElem?_drop,
        show ms.length - 100 + (j - (ms.length - 100)) = j from by omega]
      exact hej

/-- Witness for C6 at a concrete two-utterance submission. -/
theorem c6_queue_flush_order_witness :
    flushMessageQueue (enqueueAll 100 ([] : List OutMsg)
        [OutMsg.audioChunk 1, OutMsg.endAudio 1,
         OutMsg.audioChunk 2, OutMsg.endAudio 2]) =
      [OutMsg.audioChunk 1, OutMsg.endAudio 1,
       OutMsg.audioChunk 2, OutMsg.endAudio 2] ∧
    (∃ i' j' : Nat, i' < j' ∧
      (flushMessageQueue (enqueueAll 100 ([] : List OutMsg)
          [OutMsg.audioChunk 1, OutMsg.endAudio 1,
           OutMsg.audioChunk 2, OutMsg.endAudio 2]))[i']? =
        some (OutMsg.audioChunk 2) ∧
      (flushMessageQueue (enqueueAll 100 ([] : List OutMsg)
          [OutMsg.audioChunk 1, OutMsg.endAudio 1,
           OutMsg.audioChunk 2, OutMsg.endAudio 2]))[j']? =
        some (OutMsg.endAudio 2)) :=
  ⟨(c6_queue_flush_order
      [OutMsg.audioChunk 1, OutMsg.endAudio 1,
       OutMsg.audioChunk 2, OutMsg.endAudio 2]).2.1 (by norm_num),
   (c6_queue_flush_order
      [OutMsg.audioChunk 1, OutMsg.endAudio 1,
       OutMsg.audioChunk 2, OutMsg.endAudio 2]).2.2 2 3 2
     (by norm_num) (by norm_num) (by norm_num) (by decide) (by decide)⟩

end Samvad
